import Mathlib

/-!
Shallow embedding of the intent-classification core of the
sentiment-analysis repository (src/src/modeling/predict.py), together with
proofs about it.  Text is modelled as `List Char`, scores and confidences
as `ℚ`.  Python string operations (`lower`, `strip`, `split`, substring
containment, `startswith`) are embedded as executable Lean functions with
ASCII semantics, which covers every string constant the program uses.
-/

/-- ASCII whitespace, matching Python `str.strip` / `str.split` / regex
`\s` on ASCII text: space, tab, newline, carriage return, vertical tab,
form feed. -/
def isPySpace (c : Char) : Bool :=
  c == ' ' || c == '\t' || c == '\n' || c == '\r' || c == '\x0b' || c == '\x0c'

/-- Python regex `\w` on ASCII text: letters, digits, underscore. -/
def isWordChar (c : Char) : Bool :=
  c.isAlphanum || c == '_'

/-- Python `str.lower` (ASCII). -/
def pyLower (t : List Char) : List Char :=
  t.map Char.toLower

/-- Python `str.strip` with no argument: remove leading and trailing
whitespace. -/
def pyStrip (t : List Char) : List Char :=
  ((t.dropWhile isPySpace).reverse.dropWhile isPySpace).reverse

/-- Boolean list-prefix test. -/
def isPrefixB : List Char → List Char → Bool
  | [], _ => true
  | _ :: _, [] => false
  | a :: as, b :: bs => a == b && isPrefixB as bs

/-- Python `needle in hay` for strings: substring containment. -/
def containsSub (needle : List Char) : List Char → Bool
  | [] => isPrefixB needle []
  | c :: rest => isPrefixB needle (c :: rest) || containsSub needle rest

/-- Python `sum(1 for w in ws if w in t)`: how many of the given words
occur as substrings of `t`. -/
def countContained (ws : List (List Char)) (t : List Char) : Nat :=
  (ws.filter (fun w => containsSub w t)).length

/-- Python `str.split()` with no argument: split on runs of whitespace,
producing no empty tokens. -/
def pySplit (t : List Char) : List (List Char) :=
  go t []
where
  go : List Char → List Char → List (List Char)
    | [], acc => if acc.isEmpty then [] else [acc.reverse]
    | c :: cs, acc =>
      if isPySpace c then
        if acc.isEmpty then go cs [] else acc.reverse :: go cs []
      else go cs (c :: acc)

/-- The three intent labels of `config.INTENT_LABELS`. -/
inductive Label where
  | question
  | comment
  | complaint
deriving DecidableEq, Repr

/-- Python `max(keys, key=score)` over an insertion-ordered dict, folded
left to right: a later entry replaces the current best only when its score
is strictly greater, so the first maximal entry wins. -/
def maxByFirst : Label × ℚ → List (Label × ℚ) → Label × ℚ
  | best, [] => best
  | best, p :: rest => maxByFirst (if best.2 < p.2 then p else best) rest

namespace RuleBasedClassifier

/-- `RuleBasedClassifier.QUESTION_WORDS`. -/
def QUESTION_WORDS : List (List Char) :=
  ["what", "when", "where", "who", "whom", "whose", "which", "why", "how",
   "can", "could", "would", "should", "will", "do", "does", "did", "is", "are",
   "was", "were", "have", "has", "had", "may", "might", "must"].map String.toList

/-- `RuleBasedClassifier.COMPLAINT_WORDS`. -/
def COMPLAINT_WORDS : List (List Char) :=
  ["terrible", "awful", "horrible", "worst", "bad", "broken", "useless",
   "disappointed", "disappointing", "frustrating", "frustrated", "angry",
   "upset", "unacceptable", "poor", "failed", "failure", "never works",
   "doesn't work", "not working", "issue", "problem", "bug", "error",
   "hate", "ridiculous", "pathetic", "disgusted", "waste", "wrong",
   "crash", "crashing", "waiting", "hours", "refund", "unhappy", "quality",
   "worse", "service", "support", "fix", "constantly", "stop"].map String.toList

/-- `RuleBasedClassifier.POSITIVE_WORDS`. -/
def POSITIVE_WORDS : List (List Char) :=
  ["great", "good", "excellent", "amazing", "wonderful", "fantastic",
   "awesome", "love", "like", "enjoy", "enjoyed", "helpful", "useful",
   "appreciate", "appreciated", "thanks", "thank you", "perfect",
   "impressed", "happy", "pleased", "nice", "beautiful", "brilliant"].map String.toList

/-- Negative phrases checked in `_calculate_complaint_score`. -/
def negative_phrases : List (List Char) :=
  ["not working", "doesn't work", "won't work", "can't use",
   "not satisfied", "very disappointed", "extremely frustrated",
   "keeps crashing", "waiting for", "want a refund", "never works"].map String.toList

/-- Statement patterns checked in `_calculate_comment_score`; each regex
`\bp\b` is a literal phrase between word boundaries. -/
def statement_phrases : List (List Char) :=
  ["i think", "i believe", "in my opinion",
   "i feel", "i would say", "just wanted to"].map String.toList

/-- Alternatives of the first group of the complaint regex
`\bi\s+(am|was|have been|\'m|\'ve been)\s+\w*\s*(...)`. -/
def link_phrases : List (List Char) :=
  ["am", "was", "have been", "'m", "'ve been"].map String.toList

/-- Alternatives of the second group of the complaint regex. -/
def emotion_words : List (List Char) :=
  ["disappointed", "frustrated", "upset", "angry", "unhappy"].map String.toList

/-- Consume the regex `\s+` greedily: `none` when no leading whitespace,
otherwise the remainder after the maximal whitespace run.  Greedy
consumption is faithful here because every construct the program places
after a `\s+` begins with a non-whitespace character. -/
def dropSpaces1 : List Char → Option (List Char)
  | [] => none
  | c :: rest => if isPySpace c then some (rest.dropWhile isPySpace) else none

/-- Does one of the emotion-word alternatives match starting exactly
here? -/
def emotionAt (l : List Char) : Bool :=
  emotion_words.any (fun w => isPrefixB w l)

/-- Match the tail `\s+\w*\s*(disappointed|...)` of the complaint regex
at the start of `rest`: one-or-more whitespace, then up to `k` word
characters for `\w*`, then `\s*` (which, since every emotion word starts
with a word character, matters only after the full word-character run). -/
def matchEmotionTail (rest : List Char) : Bool :=
  match dropSpaces1 rest with
  | none => false
  | some s =>
    let r := (s.takeWhile isWordChar).length
    (List.range (r + 1)).any (fun k => emotionAt (s.drop k))
      || emotionAt ((s.drop r).dropWhile isPySpace)

/-- Match `\s+(am|was|have been|\'m|\'ve been)` followed by the emotion
tail, at the start of `rest` (the part right after the leading `i`). -/
def matchAfterI (rest : List Char) : Bool :=
  match dropSpaces1 rest with
  | none => false
  | some s =>
    link_phrases.any (fun w => isPrefixB w s && matchEmotionTail (s.drop w.length))

/-- Python `re.search` of the complaint regex
`\bi\s+(am|was|have been|\'m|\'ve been)\s+\w*\s*(disappointed|frustrated|upset|angry|unhappy)`:
try every position; a match needs a word boundary before the `i`. -/
def complaintRegex (text : List Char) : Bool :=
  go none text
where
  go : Option Char → List Char → Bool
    | prev, l =>
      ((match prev with
        | none => true
        | some c => !isWordChar c)
       && (match l with
           | 'i' :: rest => matchAfterI rest
           | _ => false))
      || (match l with
          | [] => false
          | c :: rest => go (some c) rest)

/-- Python `re.search (r"\bp\b") text` for a literal phrase `p` that
starts and ends with word characters: `p` occurs at some position whose
preceding character (if any) and following character (if any) are not
word characters. -/
def searchWordBounded (phrase : List Char) (text : List Char) : Bool :=
  go none text
where
  go : Option Char → List Char → Bool
    | prev, l =>
      ((match prev with
        | none => true
        | some c => !isWordChar c)
       && isPrefixB phrase l
       && (match l.drop phrase.length with
           | [] => true
           | c :: _ => !isWordChar c))
      || (match l with
          | [] => false
          | c :: rest => go (some c) rest)

/-- Python `words = text.split(); words and words[0] in QUESTION_WORDS`:
the text has a first word and it is an interrogative word. -/
def first_word_is_question (text : List Char) : Bool :=
  match pySplit text with
  | [] => false
  | w :: _ => QUESTION_WORDS.any (fun q => q == w)

/-- `RuleBasedClassifier._calculate_question_score` on the lower-cased,
stripped text. -/
def calculate_question_score (text : List Char) : ℚ :=
  let s1 : ℚ := if containsSub ['?'] text then 40 else 0
  let s2 : ℚ := if first_word_is_question text then 30 else 0
  let s3 : ℚ := min ((countContained QUESTION_WORDS text : ℚ) * 5) 30
  min (s1 + s2 + s3) 100

/-- `RuleBasedClassifier._calculate_complaint_score` on the lower-cased,
stripped text. -/
def calculate_complaint_score (text : List Char) : ℚ :=
  let s1 : ℚ := min ((countContained COMPLAINT_WORDS text : ℚ) * 20) 70
  let s2 : ℚ := (countContained negative_phrases text : ℚ) * 25
  let s3 : ℚ := if containsSub ['!'] text then 15 else 0
  let s4 : ℚ := if complaintRegex text then 25 else 0
  min (s1 + s2 + s3 + s4) 100

/-- `RuleBasedClassifier._calculate_comment_score` on the lower-cased,
stripped text. -/
def calculate_comment_score (text : List Char) : ℚ :=
  let s1 : ℚ := 30
  let s2 : ℚ := min ((countContained POSITIVE_WORDS text : ℚ) * 15) 50
  let s3 : ℚ := if !containsSub ['?'] text && !containsSub ['!'] text then 10 else 0
  let s4 : ℚ := ((statement_phrases.filter (fun p => searchWordBounded p text)).length : ℚ) * 10
  min (s1 + s2 + s3 + s4) 100

/-- `RuleBasedClassifier._generate_reason`. -/
def generate_reason (label : Label) (text : List Char) : List Char :=
  match label with
  | .question =>
    if containsSub ['?'] text then
      "Contains question mark and interrogative structure".toList
    else
      "Contains question words seeking information".toList
  | .complaint =>
    match COMPLAINT_WORDS.filter (fun w => containsSub w text) with
    | w :: _ =>
      "Contains negative language indicating dissatisfaction ('".toList
        ++ w ++ "')".toList
    | [] => "Expresses frustration or problem with service".toList
  | .comment =>
    match POSITIVE_WORDS.filter (fun w => containsSub w text) with
    | w :: _ =>
      "Appears to be feedback or observation ('".toList ++ w ++ "')".toList
    | [] => "Declarative statement providing feedback or opinion".toList

/-- `RuleBasedClassifier.classify`: lower-case and strip the text, score
the three categories, pick the best-scoring label (dict iteration order
question, complaint, comment; first maximum wins), and attach a reason. -/
def classify (text : List Char) : Label × ℚ × List Char :=
  let text_lower := pyStrip (pyLower text)
  let question_score := calculate_question_score text_lower
  let complaint_score := calculate_complaint_score text_lower
  let comment_score := calculate_comment_score text_lower
  let best := maxByFirst (Label.question, question_score)
    [(Label.complaint, complaint_score), (Label.comment, comment_score)]
  (best.1, best.2, generate_reason best.1 text_lower)

end RuleBasedClassifier

/-- Outcome of one call to the external Hugging Face sentiment pipeline:
its `label` field (`POSITIVE`/`NEGATIVE`) and its `score` in `[0,1]`. -/
structure Sentiment where
  label : List Char
  score : ℚ
deriving DecidableEq

/-- Round a non-negative rational to the nearest multiple of `1/100`,
halves to even, as an integer number of hundredths. -/
def roundHundredths (q : ℚ) : ℤ :=
  let m := q * 100
  let fl := ⌊m⌋
  if (1 : ℚ) / 2 < m - fl then fl + 1
  else if m - fl < (1 : ℚ) / 2 then fl
  else if fl % 2 = 0 then fl else fl + 1

/-- Python `f"{q:.2f}"` for a non-negative rational (the program only
formats pipeline scores, which lie in `[0,1]`); float rounding is
modelled as exact round-half-even on the rational. -/
def fmt2 (q : ℚ) : List Char :=
  let n := (roundHundredths q).toNat
  (toString (n / 100)).toList ++ ['.']
    ++ (if n % 100 < 10 then ['0'] else []) ++ (toString (n % 100)).toList

namespace AIClassifier

/-- Interrogative words checked by `AIClassifier.classify` (a shorter
list than the rule-based one). -/
def question_words : List (List Char) :=
  ["what", "when", "where", "who", "whom", "whose", "which",
   "why", "how", "can", "could", "would", "should", "will",
   "do", "does", "did", "is", "are", "was", "were"].map String.toList

/-- Complaint indicators checked on the NEGATIVE branch of
`AIClassifier.classify`. -/
def complaint_indicators : List (List Char) :=
  ["problem", "issue", "broken", "doesn't work", "not working",
   "terrible", "awful", "bad", "worst", "frustrated", "disappointed",
   "hate", "horrible", "useless", "never works", "keeps crashing",
   "want a refund", "unacceptable", "angry", "upset"].map String.toList

/-- Positive words checked on the non-NEGATIVE branch of
`AIClassifier.classify`. -/
def positive_words : List (List Char) :=
  ["great", "good", "love", "excellent", "amazing", "thanks",
   "appreciate", "awesome", "fantastic", "wonderful"].map String.toList

/-- `AIClassifier.classify` in the available state, with the external
pipeline call's outcome for this text passed in as `pipe` (`.error` both
when the pipeline raises and for the re-raised wrapper exception; the
classifier propagates failure either way).  Question shortcuts come
first and never touch the pipeline; otherwise the binary sentiment is
mapped to `complaint`/`comment`. -/
def classify (pipe : Except Unit Sentiment) (text : List Char) :
    Except Unit (Label × ℚ × List Char) :=
  let text_lower := pyStrip (pyLower text)
  if containsSub ['?'] text then
    .ok (.question, 85, "Contains question mark and interrogative structure".toList)
  else if question_words.any (fun w => isPrefixB (w ++ [' ']) text_lower) then
    .ok (.question, 80, "Starts with interrogative word seeking information".toList)
  else
    match pipe with
    | .error e => .error e
    | .ok s =>
      if s.label == "NEGATIVE".toList then
        let has_complaint_words := complaint_indicators.any (fun w => containsSub w text_lower)
        if has_complaint_words || s.score > (0.8 : ℚ) then
          .ok (.complaint, min (s.score * 100) 95,
            "Negative sentiment with complaint indicators (model confidence: ".toList
              ++ fmt2 s.score ++ ")".toList)
        else
          .ok (.complaint, min (s.score * 80) 75,
            "Negative sentiment detected (model confidence: ".toList
              ++ fmt2 s.score ++ ")".toList)
      else
        let confidence := min (s.score * 100) 95
        let has_positive := positive_words.any (fun w => containsSub w text_lower)
        if has_positive then
          .ok (.comment, confidence,
            "Positive sentiment detected (model confidence: ".toList
              ++ fmt2 s.score ++ ")".toList)
        else
          .ok (.comment, max (confidence * (0.8 : ℚ)) 60,
            "Neutral observation or feedback (model confidence: ".toList
              ++ fmt2 s.score ++ ")".toList)

end AIClassifier

namespace IntentClassifier

/-- `IntentClassifier.classify`.  `use_ai_model` is
`config.USE_AI_MODEL`; `ai_available` is `AIClassifier.is_available()`
(whether the pipeline loaded); `pipe` is the pipeline outcome for this
text when it is consulted.  Empty or whitespace-only input
short-circuits; otherwise the AI path is tried when enabled and
available, falling back to rules on failure. -/
def classify (use_ai_model ai_available : Bool) (pipe : Except Unit Sentiment)
    (text : List Char) : Label × ℚ × List Char × Bool :=
  if pyStrip text = [] then
    (.comment, 30, "Empty or invalid input".toList, false)
  else if use_ai_model && ai_available then
    match AIClassifier.classify pipe text with
    | .ok (label, confidence, reason) => (label, confidence, reason, true)
    | .error _ =>
      let (label, confidence, reason) := RuleBasedClassifier.classify text
      (label, confidence, reason, false)
  else
    let (label, confidence, reason) := RuleBasedClassifier.classify text
    (label, confidence, reason, false)

end IntentClassifier

/-- The record returned by `IntentClassifier.classify_with_escalation`. -/
structure ClassificationResult where
  label : Label
  confidence : ℚ
  reason : List Char
  escalate : Bool
  method : List Char
deriving DecidableEq

namespace IntentClassifier

/-- `IntentClassifier.classify_with_escalation`: wrap `classify`,
flag escalation when the confidence is below
`config.CONFIDENCE_THRESHOLD`, and report which method produced the
result. -/
def classify_with_escalation (threshold : ℚ) (use_ai_model ai_available : Bool)
    (pipe : Except Unit Sentiment) (text : List Char) : ClassificationResult :=
  let r := classify use_ai_model ai_available pipe text
  { label := r.1
    confidence := r.2.1
    reason := r.2.2.1
    escalate := decide (r.2.1 < threshold)
    method := if r.2.2.2 then "ai".toList else "rules".toList }

end IntentClassifier

namespace RuleBasedClassifier

theorem calculate_question_score_nonneg (t : List Char) :
    0 ≤ calculate_question_score t := by
  simp only [calculate_question_score]
  refine le_min ?_ (by norm_num)
  have h1 : (0 : ℚ) ≤ if containsSub ['?'] t then (40 : ℚ) else 0 := by split <;> norm_num
  have h2 : (0 : ℚ) ≤ if first_word_is_question t then (30 : ℚ) else 0 := by split <;> norm_num
  have h3 : (0 : ℚ) ≤ min ((countContained QUESTION_WORDS t : ℚ) * 5) 30 :=
    le_min (by positivity) (by norm_num)
  linarith

theorem calculate_question_score_le_100 (t : List Char) :
    calculate_question_score t ≤ 100 := by
  simp only [calculate_question_score]
  exact min_le_right _ _

theorem calculate_complaint_score_nonneg (t : List Char) :
    0 ≤ calculate_complaint_score t := by
  simp only [calculate_complaint_score]
  refine le_min ?_ (by norm_num)
  have h1 : (0 : ℚ) ≤ min ((countContained COMPLAINT_WORDS t : ℚ) * 20) 70 :=
    le_min (by positivity) (by norm_num)
  have h2 : (0 : ℚ) ≤ (countContained negative_phrases t : ℚ) * 25 := by positivity
  have h3 : (0 : ℚ) ≤ if containsSub ['!'] t then (15 : ℚ) else 0 := by split <;> norm_num
  have h4 : (0 : ℚ) ≤ if complaintRegex t then (25 : ℚ) else 0 := by split <;> norm_num
  linarith

theorem calculate_complaint_score_le_100 (t : List Char) :
    calculate_complaint_score t ≤ 100 := by
  simp only [calculate_complaint_score]
  exact min_le_right _ _

theorem calculate_comment_score_ge_30 (t : List Char) :
    30 ≤ calculate_comment_score t := by
  simp only [calculate_comment_score]
  refine le_min ?_ (by norm_num)
  have h2 : (0 : ℚ) ≤ min ((countContained POSITIVE_WORDS t : ℚ) * 15) 50 :=
    le_min (by positivity) (by norm_num)
  have h3 : (0 : ℚ) ≤
      if (!containsSub ['?'] t && !containsSub ['!'] t) = true then (10 : ℚ) else 0 := by
    split <;> norm_num
  have h4 : (0 : ℚ) ≤
      (((statement_phrases.filter fun p => searchWordBounded p t).length : ℚ)) * 10 := by
    positivity
  linarith

theorem calculate_comment_score_le_100 (t : List Char) :
    calculate_comment_score t ≤ 100 := by
  simp only [calculate_comment_score]
  exact min_le_right _ _

end RuleBasedClassifier

theorem maxByFirst_three (p1 p2 p3 : Label × ℚ) :
    maxByFirst p1 [p2, p3] =
      if p1.2 < p2.2 then (if p2.2 < p3.2 then p3 else p2)
      else (if p1.2 < p3.2 then p3 else p1) := by
  simp only [maxByFirst]
  by_cases h12 : p1.2 < p2.2 <;> simp [h12]

theorem maxByFirst_three_snd_mem (p1 p2 p3 : Label × ℚ) :
    (maxByFirst p1 [p2, p3]).2 = p1.2 ∨ (maxByFirst p1 [p2, p3]).2 = p2.2 ∨
      (maxByFirst p1 [p2, p3]).2 = p3.2 := by
  rw [maxByFirst_three]
  split <;> split <;> simp

theorem maxByFirst_three_snd_ge (p1 p2 p3 : Label × ℚ) :
    p1.2 ≤ (maxByFirst p1 [p2, p3]).2 ∧ p2.2 ≤ (maxByFirst p1 [p2, p3]).2 ∧
      p3.2 ≤ (maxByFirst p1 [p2, p3]).2 := by
  rw [maxByFirst_three]
  split_ifs <;> refine ⟨?_, ?_, ?_⟩ <;> dsimp <;> linarith

namespace RuleBasedClassifier

theorem classify_confidence_eq (text : List Char) :
    (classify text).2.1 =
      (maxByFirst (Label.question, calculate_question_score (pyStrip (pyLower text)))
        [(Label.complaint, calculate_complaint_score (pyStrip (pyLower text))),
         (Label.comment, calculate_comment_score (pyStrip (pyLower text)))]).2 := rfl

/-- Claim C2: `RuleBasedClassifier.classify` is total (it is a Lean
function, so it returns on every input without raising), its label is one
of question, comment, complaint, and its confidence lies in `[0, 100]`. -/
theorem classify_total_bounds (text : List Char) :
    ((classify text).1 = Label.question ∨ (classify text).1 = Label.comment ∨
      (classify text).1 = Label.complaint) ∧
    0 ≤ (classify text).2.1 ∧ (classify text).2.1 ≤ 100 := by
  refine ⟨?_, ?_, ?_⟩
  · cases h : (classify text).1 <;> simp
  · rw [classify_confidence_eq]
    rcases maxByFirst_three_snd_mem
        (Label.question, calculate_question_score (pyStrip (pyLower text)))
        (Label.complaint, calculate_complaint_score (pyStrip (pyLower text)))
        (Label.comment, calculate_comment_score (pyStrip (pyLower text))) with h | h | h <;>
      rw [h] <;> dsimp
    · exact calculate_question_score_nonneg _
    · exact calculate_complaint_score_nonneg _
    · linarith [calculate_comment_score_ge_30 (pyStrip (pyLower text))]
  · rw [classify_confidence_eq]
    rcases maxByFirst_three_snd_mem
        (Label.question, calculate_question_score (pyStrip (pyLower text)))
        (Label.complaint, calculate_complaint_score (pyStrip (pyLower text)))
        (Label.comment, calculate_comment_score (pyStrip (pyLower text))) with h | h | h <;>
      rw [h] <;> dsimp
    · exact calculate_question_score_le_100 _
    · exact calculate_complaint_score_le_100 _
    · exact calculate_comment_score_le_100 _

/-- Claim C9: the confidence returned by `RuleBasedClassifier.classify`
is at least 30, because the comment score starts from a base of 30 and
never decreases, and the returned confidence is the (first-wins) maximum
of the three category scores. -/
theorem classify_confidence_ge_30 (text : List Char) :
    30 ≤ (classify text).2.1 := by
  rw [classify_confidence_eq]
  have h := (maxByFirst_three_snd_ge
      (Label.question, calculate_question_score (pyStrip (pyLower text)))
      (Label.complaint, calculate_complaint_score (pyStrip (pyLower text)))
      (Label.comment, calculate_comment_score (pyStrip (pyLower text)))).2.2
  dsimp at h
  linarith [calculate_comment_score_ge_30 (pyStrip (pyLower text))]

/-- Claim C5: the category with the strictly highest score is selected,
and on ties the first maximal one in the iteration order question,
complaint, comment wins: complaint is chosen only when it strictly beats
question, and comment only when it strictly beats both. -/
theorem classify_label_first_max (text : List Char) :
    (classify text).1 =
      (if calculate_question_score (pyStrip (pyLower text)) <
          calculate_complaint_score (pyStrip (pyLower text)) then
        (if calculate_complaint_score (pyStrip (pyLower text)) <
            calculate_comment_score (pyStrip (pyLower text)) then Label.comment
         else Label.complaint)
       else
        (if calculate_question_score (pyStrip (pyLower text)) <
            calculate_comment_score (pyStrip (pyLower text)) then Label.comment
         else Label.question)) := by
  have h1 : (classify text).1 =
      (maxByFirst (Label.question, calculate_question_score (pyStrip (pyLower text)))
        [(Label.complaint, calculate_complaint_score (pyStrip (pyLower text))),
         (Label.comment, calculate_comment_score (pyStrip (pyLower text)))]).1 := rfl
  rw [h1, maxByFirst_three]
  split_ifs <;> rfl

/-- Claim C10: `RuleBasedClassifier.classify` is invariant under
letter-case changes of its input: any two case-variants (inputs with the
same lower-casing) classify identically, because the text is lower-cased
and trimmed before any scoring or reason generation. -/
theorem classify_case_insensitive (t u : List Char) (h : pyLower t = pyLower u) :
    classify t = classify u := by
  unfold classify
  rw [h]

theorem classify_case_insensitive_witness :
    pyLower "Great Product!".toList = pyLower "GREAT PRODUCT!".toList ∧
    classify "Great Product!".toList = classify "GREAT PRODUCT!".toList :=
  ⟨by decide, classify_case_insensitive _ _ (by decide)⟩

end RuleBasedClassifier

namespace IntentClassifier

/-- Claim C1: every result record of
`IntentClassifier.classify_with_escalation` satisfies
`escalate == (confidence < threshold)`, regardless of which path (model,
rules, or the empty-input short-circuit) produced it. -/
theorem escalate_iff_confidence_lt (threshold : ℚ) (use_ai_model ai_available : Bool)
    (pipe : Except Unit Sentiment) (text : List Char) :
    (classify_with_escalation threshold use_ai_model ai_available pipe text).escalate = true ↔
      (classify_with_escalation threshold use_ai_model ai_available pipe text).confidence <
        threshold := by
  exact decide_eq_true_iff

end IntentClassifier

namespace IntentClassifier

theorem empty_input_reason_ne_spec :
    (classify_with_escalation 70 false false (Except.error ()) []).reason ≠
      "empty or invalid input".toList := by decide

/-- Claim C3 (amended): for every input that is empty or consists only of
whitespace, `classify_with_escalation` returns exactly the record
`(label=comment, confidence=30, reason="Empty or invalid input",
method=rules, escalate = (threshold > 30))`, without consulting either
classifier (the result does not depend on the model flags or the
pipeline outcome). -/
theorem classify_with_escalation_empty (threshold : ℚ) (use_ai_model ai_available : Bool)
    (pipe : Except Unit Sentiment) (text : List Char) (h : pyStrip text = []) :
    classify_with_escalation threshold use_ai_model ai_available pipe text =
      { label := Label.comment, confidence := 30,
        reason := "Empty or invalid input".toList,
        escalate := decide ((30 : ℚ) < threshold), method := "rules".toList } := by
  unfold classify_with_escalation classify
  rw [h]
  simp

theorem classify_with_escalation_empty_witness :
    pyStrip "   ".toList = [] ∧
    classify_with_escalation 70 false false (Except.error ()) "   ".toList =
      { label := Label.comment, confidence := 30,
        reason := "Empty or invalid input".toList,
        escalate := decide ((30 : ℚ) < 70), method := "rules".toList } :=
  ⟨by decide, classify_with_escalation_empty 70 false false (Except.error ()) _ (by decide)⟩

theorem method_ai_ne_model :
    (classify true true (Except.error ()) "hi?".toList).2.2.2 = true ∧
    (classify_with_escalation 70 true true (Except.error ()) "hi?".toList).method ≠
      "model".toList := by
  constructor
  · rfl
  · decide

/-- Claim C4 (amended): the `method` field of every
`classify_with_escalation` result is the string `"ai"` when the
pretrained-model path produced the result and `"rules"` otherwise; in
particular it is always one of the two strings `"ai"` and `"rules"`
(never `"model"`). -/
theorem method_ai_or_rules (threshold : ℚ) (use_ai_model ai_available : Bool)
    (pipe : Except Unit Sentiment) (text : List Char) :
    ((classify_with_escalation threshold use_ai_model ai_available pipe text).method =
        "ai".toList ∨
      (classify_with_escalation threshold use_ai_model ai_available pipe text).method =
        "rules".toList) ∧
    ((classify_with_escalation threshold use_ai_model ai_available pipe text).method =
        "ai".toList ↔
      (classify use_ai_model ai_available pipe text).2.2.2 = true) := by
  unfold classify_with_escalation
  by_cases hu : (classify use_ai_model ai_available pipe text).2.2.2 <;> simp [hu]

/-- Claim C8: when the pretrained-model classifier is unavailable (or
disabled by configuration), `classify_with_escalation` on a non-empty,
non-whitespace text reports `method = "rules"` and carries exactly the
label and confidence of the standalone `RuleBasedClassifier.classify` on
the same text. -/
theorem fallback_matches_rule_based (threshold : ℚ) (use_ai_model ai_available : Bool)
    (pipe : Except Unit Sentiment) (text : List Char)
    (hne : pyStrip text ≠ []) (hoff : use_ai_model = false ∨ ai_available = false) :
    (classify_with_escalation threshold use_ai_model ai_available pipe text).method =
      "rules".toList ∧
    (classify_with_escalation threshold use_ai_model ai_available pipe text).label =
      (RuleBasedClassifier.classify text).1 ∧
    (classify_with_escalation threshold use_ai_model ai_available pipe text).confidence =
      (RuleBasedClassifier.classify text).2.1 := by
  have hand : (use_ai_model && ai_available) = false := by
    rcases hoff with h | h <;> simp [h]
  rcases hrc : RuleBasedClassifier.classify text with ⟨l, cf, rs⟩
  unfold classify_with_escalation classify
  rw [if_neg hne, hand, hrc]
  simp

theorem fallback_matches_rule_based_witness :
    pyStrip "What time is it?".toList ≠ [] ∧
    ((classify_with_escalation 70 true false (Except.error ())
        "What time is it?".toList).method = "rules".toList ∧
      (classify_with_escalation 70 true false (Except.error ())
        "What time is it?".toList).label =
        (RuleBasedClassifier.classify "What time is it?".toList).1 ∧
      (classify_with_escalation 70 true false (Except.error ())
        "What time is it?".toList).confidence =
        (RuleBasedClassifier.classify "What time is it?".toList).2.1) :=
  ⟨by decide,
   fallback_matches_rule_based 70 true false (Except.error ()) _ (by decide) (Or.inr rfl)⟩

end IntentClassifier

namespace AIClassifier

/-- Claim C6: for every text containing `'?'`, `AIClassifier.classify`
returns label question with confidence exactly 85, for every pipeline
outcome (so the external sentiment pipeline is never consulted). -/
theorem classify_question_mark_85 (pipe : Except Unit Sentiment) (text : List Char)
    (h : containsSub ['?'] text = true) :
    classify pipe text =
      Except.ok (Label.question, 85,
        "Contains question mark and interrogative structure".toList) := by
  unfold classify
  simp [h]

theorem classify_question_mark_85_witness :
    containsSub ['?'] "hi?".toList = true ∧
    classify (Except.error ()) "hi?".toList =
      Except.ok (Label.question, 85,
        "Contains question mark and interrogative structure".toList) :=
  ⟨by decide, classify_question_mark_85 (Except.error ()) _ (by decide)⟩

theorem classify_neutral_eval (s : Sentiment) (text : List Char)
    (hq : containsSub ['?'] text = false)
    (hqw : question_words.any (fun w => isPrefixB (w ++ [' ']) (pyStrip (pyLower text))) = false)
    (hneg : (s.label == "NEGATIVE".toList) = false)
    (hpos : positive_words.any (fun w => containsSub w (pyStrip (pyLower text))) = false) :
    classify (Except.ok s) text =
      Except.ok (Label.comment, max (min (s.score * 100) 95 * (0.8 : ℚ)) 60,
        "Neutral observation or feedback (model confidence: ".toList
          ++ fmt2 s.score ++ ")".toList) := by
  have hneg' : s.label ≠ "NEGATIVE".toList := by simpa using hneg
  unfold classify
  simp [hq, hqw, hpos]
  intro hlab
  exact absurd hlab hneg'

theorem neutral_confidence_counterexample :
    (classify (Except.ok ⟨"POSITIVE".toList, 99 / 100⟩) "zzz".toList).toOption.map
        (fun x => (x.1, x.2.1)) = some (Label.comment, 76) ∧
    ¬ ((76 : ℚ) = max ((99 / 100 : ℚ) * 80) 60) := by
  constructor
  · rw [classify_neutral_eval ⟨"POSITIVE".toList, 99 / 100⟩ "zzz".toList
      (by decide) (by decide) (by decide) (by decide)]
    dsimp [Except.toOption]
    norm_num [min_def, max_def]
  · norm_num [max_def]

/-- Claim C7 (amended): on the pretrained-model path, when the external
sentiment pipeline returns a non-NEGATIVE label with score `s` and no
positive-indicator keyword is present in the text (and neither question
shortcut fires), `AIClassifier.classify` returns label comment with
confidence exactly `max(min(s × 100, 95) × 0.8, 60)`. -/
theorem classify_neutral_confidence (s : Sentiment) (text : List Char)
    (hq : containsSub ['?'] text = false)
    (hqw : question_words.any (fun w => isPrefixB (w ++ [' ']) (pyStrip (pyLower text))) = false)
    (hneg : (s.label == "NEGATIVE".toList) = false)
    (hpos : positive_words.any (fun w => containsSub w (pyStrip (pyLower text))) = false) :
    classify (Except.ok s) text =
      Except.ok (Label.comment, max (min (s.score * 100) 95 * (0.8 : ℚ)) 60,
        "Neutral observation or feedback (model confidence: ".toList
          ++ fmt2 s.score ++ ")".toList) :=
  classify_neutral_eval s text hq hqw hneg hpos

theorem classify_neutral_confidence_witness :
    containsSub ['?'] "zzz".toList = false ∧
    question_words.any
      (fun w => isPrefixB (w ++ [' ']) (pyStrip (pyLower "zzz".toList))) = false ∧
    ((Sentiment.mk "POSITIVE".toList (99 / 100)).label == "NEGATIVE".toList) = false ∧
    positive_words.any
      (fun w => containsSub w (pyStrip (pyLower "zzz".toList))) = false ∧
    classify (Except.ok (Sentiment.mk "POSITIVE".toList (99 / 100))) "zzz".toList =
      Except.ok (Label.comment,
        max (min ((Sentiment.mk "POSITIVE".toList (99 / 100)).score * 100) 95 * (0.8 : ℚ)) 60,
        "Neutral observation or feedback (model confidence: ".toList
          ++ fmt2 (Sentiment.mk "POSITIVE".toList (99 / 100)).score ++ ")".toList) :=
  ⟨by decide, by decide, by decide, by decide,
   classify_neutral_confidence (Sentiment.mk "POSITIVE".toList (99 / 100)) "zzz".toList
     (by decide) (by decide) (by decide) (by decide)⟩

end AIClassifier
